import Mathlib

/-!
Verification development for the foundry-subscription-auditor repository.

Each Python module relevant to the checked properties is shallow-embedded:
pure data manipulation becomes Lean functions, fallible external API calls
become `Except String` inputs supplied by the environment, and collector
functions become functions over those inputs.  Machine floats are modelled
as `Rat` (the code never relies on float rounding except for `round(x, 2)`,
modelled as decimal half-even rounding).
-/

namespace FSA

/-! ## Generic Python-style helpers shared by several modules -/

/-- Python `s.lower()` (ASCII case mapping, which is all the comparisons in
this code need), on the underlying character list so that proofs can
evaluate it. -/
def pyLower (s : String) : String :=
  String.mk (s.data.map Char.toLower)

/-- Python `s.strip()` (whitespace from both ends). -/
def pyStrip (s : String) : String :=
  String.mk (((s.data.dropWhile Char.isWhitespace).reverse.dropWhile
    Char.isWhitespace).reverse)

/-- Python `s.startswith(pat)`. -/
def pyStartsWith (s pat : String) : Bool :=
  pat.data.isPrefixOf s.data

/-- Substring search on character lists. -/
def containsSubList (hay pat : List Char) : Bool :=
  match hay with
  | [] => pat.isEmpty
  | _ :: t => pat.isPrefixOf hay || containsSubList t pat

/-- Python `pattern in s` substring test on strings. -/
def pyContains (s pat : String) : Bool :=
  containsSubList s.data pat.data

/-- Worker of `splitOnChar`, accumulating the current chunk reversed. -/
def splitCharAux (sep : Char) : List Char → List Char → List String
  | [], acc => [String.mk acc.reverse]
  | c :: rest, acc =>
    if c = sep then String.mk acc.reverse :: splitCharAux sep rest []
    else splitCharAux sep rest (c :: acc)

/-- Python `s.split(sep)` for a one-character separator (the only separator
the code splits on is `"/"`). -/
def splitOnChar (sep : Char) (s : String) : List String :=
  splitCharAux sep s.data []

/-- Python `s.capitalize()`: first character upper-cased, rest lower-cased. -/
def pyCapitalize (s : String) : String :=
  match s.data with
  | [] => ""
  | c :: cs => String.mk (c.toUpper :: cs.map Char.toLower)

/-- `resource_id.split("/")` followed by `parts[parts.index("resourceGroups")+1]`,
with the surrounding `try/except` returning `""` (shared `_id_to_rg` helper of
`vm_reader.py`, `storage_reader.py` and `network_reader.py`). -/
def id_to_rg (resource_id : String) : String :=
  let parts := splitOnChar '/' resource_id
  match parts.findIdx? (fun p => p == "resourceGroups") with
  | none => ""
  | some i => (parts.get? (i + 1)).getD ""

/-- Python `x or default` on an optional string: `None` and `""` are falsy. -/
def pyStrOr (x : Option String) (dflt : String) : String :=
  match x with
  | some s => if s.isEmpty then dflt else s
  | none => dflt

/-- Python truthiness of an optional string (`None` and `""` falsy). -/
def pyTruthy (x : Option String) : Bool :=
  match x with
  | some s => !s.isEmpty
  | none => false

/-- `collections.Counter` bump: increment the count of `key`, appending a new
entry at the end on first sight (Python dicts preserve insertion order). -/
def counterBump (key : String) : List (String × Nat) → List (String × Nat)
  | [] => [(key, 1)]
  | (k, n) :: rest =>
    if k = key then (k, n + 1) :: rest else (k, n) :: counterBump key rest

/-- Fold a list of keys into a `Counter` (insertion-ordered association list). -/
def counterOf (keys : List String) : List (String × Nat) :=
  keys.foldl (fun acc k => counterBump k acc) []

/-- Stable insert for descending-count order: an element goes after every
earlier element whose count is at least as large (Python `sort` stability). -/
def insertCountDesc (count : α → Nat) (x : α) : List α → List α
  | [] => [x]
  | y :: ys => if count x ≤ count y then y :: insertCountDesc count x ys else x :: y :: ys

/-- Stable sort by descending count, as Python
`sort(key=lambda r: r.count, reverse=True)` / `Counter.most_common`. -/
def sortCountDesc (count : α → Nat) : List α → List α
  | [] => []
  | x :: xs => insertCountDesc count x (sortCountDesc count xs)

/-! ## token_credential.py -/

/-- `azure.core.credentials.AccessToken` value pair. -/
structure AccessToken where
  token : String
  expires_on : Int
deriving Repr, DecidableEq

/-- `StaticTokenCredential` instance state: the wrapped bearer token and the
expiry computed once in `__init__`. -/
structure StaticTokenCredential where
  _token : String
  _expires_on : Int
deriving Repr, DecidableEq

/-- `StaticTokenCredential.__init__(token, expires_in)`:
`self._expires_on = int(time.time()) + expires_in`, with `now` the value of
`int(time.time())` at construction. -/
def StaticTokenCredential.init (now : Int) (token : String) (expires_in : Int) :
    StaticTokenCredential :=
  { _token := token, _expires_on := now + expires_in }

/-- The default `expires_in` of `StaticTokenCredential.__init__`. -/
def defaultExpiresIn : Int := 3300

/-- `StaticTokenCredential.get_token(*scopes, **kwargs)`: ignores its
arguments (and the current time) and returns the stored token and expiry. -/
def StaticTokenCredential.get_token (c : StaticTokenCredential)
    (currentTime : Int) (scopes : List String) (kwargs : List (String × String)) :
    AccessToken :=
  { token := c._token, expires_on := c._expires_on }

/-! ## audit_runner.py: storage rendering and the narrative wrapper -/

/-- The exposure classification computed per account row inside
`_render_storage_section`:
`"PrivateOnly" if pna.lower()=="disabled" and nda.lower()=="deny" else "PublicAllowed"`. -/
def render_storage_exposure (public_network_access network_default_action : String) : String :=
  if pyLower public_network_access == "disabled" && pyLower network_default_action == "deny"
  then "PrivateOnly" else "PublicAllowed"

/-- `_safe_ai(fn, arg)` from `run_audit`: return `fn(arg)`, and on any
exception return the placeholder embedding the error text. -/
def safe_ai (fn : α → Except String String) (arg : α) : String :=
  match fn arg with
  | .ok s => s
  | .error e => "(AI narrative unavailable: " ++ e ++ ")"

/-! ## storage_reader.py: the public-exposure quick signal -/

/-- The per-account condition of the `public_allowed` counter in
`get_storage_details`:
`str(pna).lower() != "disabled" or str(nda).lower() == "allow"`. -/
def public_allowed_signal (public_network_access network_default_action : String) : Bool :=
  pyLower public_network_access != "disabled" || pyLower network_default_action == "allow"

/-! ## vm_reader.py -/

/-- One VM object as returned by `virtual_machines.list_all()`, restricted to
the attributes `get_vm_details` reads.  The per-VM `instance_view(rg, name)`
call is a separate API round trip whose outcome the environment supplies per
VM (`instance_view_statuses`, the `status.code` strings, `None` codes kept as
`none`). -/
structure VmStub where
  id : String
  name : String
  location : String
  vm_size : Option String
  os_type : Option String
  instance_view_statuses : Except String (List (Option String))
  availability_set_id : Option String
  priority : Option String
  identity_type : Option String
deriving Repr

/-- One managed disk from `disks.list()` (only `managed_by` is read). -/
structure DiskStub where
  managed_by : Option String
deriving Repr, DecidableEq

/-- Environment for `get_vm_details`: outcomes of the three subscription-wide
Compute API calls. -/
structure VmApi where
  virtual_machines_list_all : Except String (List VmStub)
  disks_list : Except String (List DiskStub)
  vmss_list_all : Except String (List Unit)
deriving Repr

/-- `_get_power_state(instance_view)`: first status whose code lower-cases to
a `"powerstate/"` prefix yields `code.split("/", 1)[1].capitalize()`; any
failure (including a failed instance-view fetch handled by the caller) gives
`"Unknown"`. -/
def _get_power_state (statuses : List (Option String)) : String :=
  match statuses.find? (fun st =>
      match st with
      | some c => pyStartsWith (pyLower c) "powerstate/"
      | none => false) with
  | some (some c) => pyCapitalize (String.intercalate "/" ((splitOnChar '/' c).drop 1))
  | _ => "Unknown"

/-- One detailed VM row appended by the bounded loop of `get_vm_details`. -/
structure VmRow where
  name : String
  rg : String
  location : String
  size : String
  os : String
  power : String
  availability_set : String
  priority : String
  has_identity : Bool
  identity_kind : String
deriving Repr, DecidableEq

/-- Build one detailed row from a `VmStub`, mirroring the loop body of
`get_vm_details` (per-field defaults, guarded instance-view call). -/
def vmRowOf (vm : VmStub) : VmRow :=
  let rg := id_to_rg vm.id
  let power :=
    match vm.instance_view_statuses with
    | .ok sts => _get_power_state sts
    | .error _ => "Unknown"
  let avset : Option String :=
    match vm.availability_set_id with
    | some avid => some ((((splitOnChar '/' avid)).getLast?).getD "")
    | none => none
  { name := vm.name
    rg := rg
    location := vm.location
    size := pyStrOr vm.vm_size "Unknown"
    os := pyStrOr vm.os_type "Unknown"
    power := power
    availability_set := pyStrOr avset "—"
    priority := if pyTruthy vm.priority then vm.priority.getD "" else "Regular"
    has_identity := pyTruthy vm.identity_type
    identity_kind := pyStrOr vm.identity_type "—" }

/-- Summary record of `get_vm_details`. -/
structure VmSummary where
  total_vms_all : Nat
  total_vms : Nat
  os_counts : List (String × Nat)
  size_top : List String
  power_counts : List (String × Nat)
  spot_vms : Nat
  avset_attached_vms : Nat
  identity_vms : Nat
deriving Repr, DecidableEq

/-- Result record of `get_vm_details`. -/
structure VmData where
  summary : VmSummary
  vms : List VmRow
  total_disks : Nat
  unattached_disks : Nat
  vmss_count : Nat
deriving Repr, DecidableEq

/-- Python falsiness of `getattr(d, "managed_by", None)`: `None` or `""`. -/
def diskUnattached (d : DiskStub) : Bool :=
  match d.managed_by with
  | none => true
  | some s => s.isEmpty

/-- `get_vm_details(subscription_id, credential, max_vms)`.

The initial `virtual_machines.list_all()` and the later `disks.list()` are
not wrapped in `try/except`, so their failures propagate (hence the `Except`
result); every per-VM sub-step defaults instead.  The detail loop breaks once
`i >= max_vms`, i.e. it processes the first `max_vms` listed VMs. -/
def get_vm_details (api : VmApi) (max_vms : Nat) : Except String VmData := do
  let all_vms_list ← api.virtual_machines_list_all
  let total_vms_all := all_vms_list.length
  let sampled := all_vms_list.take max_vms
  let vms := sampled.map vmRowOf
  let os_counts := counterOf (sampled.filterMap (fun vm =>
    if pyTruthy vm.os_type then vm.os_type else none))
  let size_counts := counterOf (sampled.filterMap (fun vm =>
    if pyTruthy vm.vm_size then vm.vm_size else none))
  let power_counts := counterOf (vms.map (fun r => r.power))
  let spot_count := sampled.countP (fun vm =>
    pyTruthy vm.priority && pyLower (vm.priority.getD "") == "spot")
  let avset_count := sampled.countP (fun vm =>
    match vm.availability_set_id with
    | some avid => !((((splitOnChar '/' avid)).getLast?).getD "").isEmpty
    | none => false)
  let identity_count := sampled.countP (fun vm => pyTruthy vm.identity_type)
  let disks ← api.disks_list
  let unattached := disks.countP diskUnattached
  let vmss_count :=
    match api.vmss_list_all with
    | .ok l => l.length
    | .error _ => 0
  pure
    { summary :=
        { total_vms_all := total_vms_all
          total_vms := vms.length
          os_counts := os_counts
          size_top := (sortCountDesc (fun p => p.2) size_counts).take 5
            |>.map (fun p => p.1 ++ " (" ++ toString p.2 ++ ")")
          power_counts := power_counts
          spot_vms := spot_count
          avset_attached_vms := avset_count
          identity_vms := identity_count }
      vms := vms
      total_disks := disks.length
      unattached_disks := unattached
      vmss_count := vmss_count }

/-! ## subscription_resources.py -/

/-- One inventory row `{"type": ..., "count": ..., "sampleNames": [...]}`,
the shape shared by the Resource Graph path and the ARM fallback. -/
structure InvRow where
  rtype : String
  count : Nat
  sampleNames : List String
deriving Repr, DecidableEq

/-- One generic resource from `ResourceManagementClient.resources.list()`
(attributes read by the fallback; `type`/`name` may be `None`). -/
structure ResourceStub where
  rtype : Option String
  name : Option String
deriving Repr, DecidableEq

/-- One step of the fallback grouping loop: bump the count for lower-cased
type `t`, appending `name` to its samples while fewer than `sample_size` are
held (`defaultdict` entries appear in first-encountered order). -/
def invBump (t nm : String) (sample_size : Nat) : List InvRow → List InvRow
  | [] => [{ rtype := t, count := 1,
             sampleNames := if 0 < sample_size then [nm] else [] }]
  | r :: rest =>
    if r.rtype = t then
      { r with count := r.count + 1,
               sampleNames :=
                 if r.sampleNames.length < sample_size
                 then r.sampleNames ++ [nm] else r.sampleNames } :: rest
    else r :: invBump t nm sample_size rest

/-- `_query_arm(subscription_id, credential, sample_size)` applied to the
resources the ARM list returned: group by lower-cased type with bounded
samples, then `rows.sort(key=lambda x: x["count"], reverse=True)` (stable). -/
def _query_arm (resources : List ResourceStub) (sample_size : Nat) : List InvRow :=
  sortCountDesc (fun r => r.count)
    (resources.foldl
      (fun acc res =>
        invBump (pyLower (res.rtype.getD "")) (res.name.getD "") sample_size acc)
      [])

/-- `audit_subscription_resources`: try the Resource Graph query (any raise
is caught and treated as zero rows); if the rows are empty, try the ARM
fallback (any raise again caught, yielding `[]`).  Never raises. -/
def audit_subscription_resources
    (argResult : Except String (List InvRow))
    (armResult : Except String (List ResourceStub))
    (sample_size : Nat) : List InvRow :=
  let rows :=
    match argResult with
    | .ok r => r
    | .error _ => []
  if rows.isEmpty then
    match armResult with
    | .ok resources => _query_arm resources sample_size
    | .error _ => []
  else rows

/-- Invariant of the fallback grouping loop after `processed` resources:
every accumulated row carries the exact per-type count over `processed` and
at most `sample_size` sample names, row types are pairwise distinct, and
every processed resource type owns a row. -/
def InvOk (processed : List ResourceStub) (sample_size : Nat) (acc : List InvRow) : Prop :=
  (∀ r ∈ acc,
      r.count = processed.countP (fun res => pyLower (res.rtype.getD "") == r.rtype) ∧
      r.sampleNames.length ≤ sample_size) ∧
  (acc.map InvRow.rtype).Nodup ∧
  (∀ res ∈ processed, pyLower (res.rtype.getD "") ∈ acc.map InvRow.rtype)

/-! ## governance_security_cost_reader.py: throttling retry -/

/-- `_is_throttle_exc(e)`: lower-case the stringified error and test the
three substrings. -/
def _is_throttle_exc (e : String) : Bool :=
  let s := pyLower e
  pyContains s "429" || pyContains s "too many requests" || pyContains s "thrott"

/-- Outcome of a `_retry` run: the final result, the number of calls to `fn`
made, and the sleep durations in the order they occurred. -/
structure RetryTrace (α : Type) where
  result : Except String α
  attemptsMade : Nat
  delays : List Rat
deriving Repr

/-- The `for i in range(attempts)` loop of `_retry`, with `fn i` the outcome
of the i-th call, `jitter i` the value `random.uniform(0.0, 0.35)` drawn
before the i-th sleep, and `last` the most recent exception (re-raised when
the loop exhausts).  A sleep of `base_delay * 2**i + jitter i` happens after
every throttled failure, including the final attempt. -/
def retryLoop (fn : Nat → Except String α) (base_delay : Rat) (jitter : Nat → Rat)
    (i : Nat) : Nat → String → RetryTrace α
  | 0, last => { result := .error last, attemptsMade := 0, delays := [] }
  | remaining + 1, _ =>
    match fn i with
    | .ok v => { result := .ok v, attemptsMade := 1, delays := [] }
    | .error e =>
      if _is_throttle_exc e then
        let d := base_delay * 2 ^ i + jitter i
        let rest := retryLoop fn base_delay jitter (i + 1) remaining e
        { result := rest.result, attemptsMade := rest.attemptsMade + 1,
          delays := d :: rest.delays }
      else { result := .error e, attemptsMade := 1, delays := [] }

/-- `_retry(fn, attempts=7, base_delay=1.0)` with its default arguments. -/
def _retry (fn : Nat → Except String α) (base_delay : Rat) (jitter : Nat → Rat) :
    RetryTrace α :=
  retryLoop fn base_delay jitter 0 7 ""

/-! ## governance_security_cost_reader.py: month arithmetic and cost parsing

Calendar months are modelled by their absolute index `year * 12 + (month - 1)`,
so `_add_months` is index addition and `_month_start` is the identity on the
index of the current month. -/

/-- `f"{m:02d}"` for a month number `1..12`. -/
def pad2 (n : Nat) : String :=
  if n < 10 then "0" ++ toString n else toString n

/-- The key `f"{m_start.year}-{m_start.month:02d}"` of an absolute month. -/
def monthKey (absMonth : Nat) : String :=
  toString (absMonth / 12) ++ "-" ++ pad2 (absMonth % 12 + 1)

/-- A value inside one Cost Management result row.  `str()` renderings of
numeric, boolean and `None` values never match the month patterns the parser
accepts (a float rendering always carries a `.` or an exponent and its digits
cannot form `YYYY-MM` / `YYYYMM`), so `to_month` is `none` on them. -/
inductive CostVal where
  | num (q : Rat)
  | boolean (b : Bool)
  | str (s : String)
  | null
deriving Repr, DecidableEq

/-- Parse a decimal/scientific literal the way a successful Python
`float(s)` call does (sign, digits, optional fraction, optional exponent);
`none` when `float` would raise `ValueError`. -/
def pyFloatOfStr (s0 : String) : Option Rat :=
  let s := pyStrip s0
  let withSign : List Char → Option (Bool × List Char) := fun cs =>
    match cs with
    | '-' :: rest => some (true, rest)
    | '+' :: rest => some (false, rest)
    | rest => some (false, rest)
  let digitsVal : List Char → Nat := fun ds =>
    ds.foldl (fun acc c => acc * 10 + (c.toNat - '0'.toNat)) 0
  match withSign s.data with
  | none => none
  | some (neg, cs) =>
    let intPart := cs.takeWhile Char.isDigit
    let rest1 := cs.dropWhile Char.isDigit
    let (fracPart, rest2) :=
      match rest1 with
      | '.' :: r => (r.takeWhile Char.isDigit, r.dropWhile Char.isDigit)
      | _ => ([], rest1)
    if intPart.isEmpty ∧ fracPart.isEmpty then none
    else
      let mantissa : Rat :=
        (digitsVal intPart : Rat) + (digitsVal fracPart : Rat) / ((10 : Rat) ^ fracPart.length)
      match rest2 with
      | [] => some (if neg then -mantissa else mantissa)
      | e :: r =>
        if e = 'e' ∨ e = 'E' then
          match withSign r with
          | some (eneg, eds) =>
            if eds.isEmpty ∨ ¬ eds.all Char.isDigit then none
            else
              let ex := digitsVal eds
              let scaled := if eneg then mantissa / (10 : Rat) ^ ex else mantissa * (10 : Rat) ^ ex
              some (if neg then -scaled else scaled)
          | none => none
        else none

/-- `to_float(v)` of `_parse_monthly_rows`: `float(v)` with `bool` excluded
and failures mapped to `None`. -/
def to_float (v : CostVal) : Option Rat :=
  match v with
  | .boolean _ => none
  | .num q => some q
  | .str s => pyFloatOfStr s
  | .null => none

/-- `to_month(v)` of `_parse_monthly_rows` applied to a string value:
strip, normalise `/` to `-`, then accept `YYYY-MM...` (7th char absent or a
dash) as its first 7 characters, or a 6-digit `YYYYMM` as `YYYY-MM`. -/
def to_month_str (s0 : String) : Option String :=
  let s := pyStrip s0
  if s.isEmpty then none
  else
    let s2 := String.mk (s.data.map (fun c => if c = '/' then '-' else c))
    let l := s2.data
    if 7 ≤ l.length ∧ l.get? 4 = some '-' ∧ (l.length = 7 ∨ l.get? 7 = some '-') then
      some (String.mk (l.take 7))
    else if l.length = 6 ∧ l.all Char.isDigit then
      some (String.mk (l.take 4) ++ "-" ++ String.mk (l.drop 4))
    else none

/-- `to_month(v)` on an arbitrary row value (non-strings stringify to forms
the month patterns reject, see `CostVal`). -/
def to_month (v : CostVal) : Option String :=
  match v with
  | .str s => to_month_str s
  | _ => none

/-- Replace-or-append assignment `out[month] = cost` on an insertion-ordered
dict. -/
def dictPut (k : String) (v : Rat) : List (String × Rat) → List (String × Rat)
  | [] => [(k, v)]
  | (k', v') :: rest => if k' = k then (k', v) :: rest else (k', v') :: dictPut k v rest

/-- `dict.get k` on an insertion-ordered dict. -/
def dictGet? (k : String) : List (String × Rat) → Option Rat
  | [] => none
  | (k', v') :: rest => if k' = k then some v' else dictGet? k rest

/-- The numeric-cost choice of `_parse_monthly_rows`: sort candidates by
descending absolute value (stable) and take the first, i.e. the earliest
candidate of maximal absolute value. -/
def pickCost (nums : List Rat) : Option Rat :=
  nums.foldl
    (fun best x =>
      match best with
      | none => some x
      | some b => if |b| < |x| then some x else some b)
    none

/-- `_parse_monthly_rows(rows)`: per row, the first month-like value and the
largest-magnitude numeric value; rows lacking either are dropped; later rows
overwrite earlier months.  Non-sequence and empty rows are skipped by the
guard, so rows are modelled as value lists (an empty list is skipped by
`to_month`/`to_float` both failing on nothing — modelled explicitly). -/
def _parse_monthly_rows (rows : List (List CostVal)) : List (String × Rat) :=
  rows.foldl
    (fun out r =>
      if r.isEmpty then out
      else
        let month := r.findSome? to_month
        let cost := pickCost (r.filterMap to_float)
        match month, cost with
        | some m, some c => dictPut m c out
        | _, _ => out)
    []

/-- Round-half-even to an integer (the rounding mode of Python `round`,
idealised to exact rationals). -/
def roundHalfEven (q : Rat) : Int :=
  let f := ⌊q⌋
  let r := q - (f : Rat)
  if r < 1/2 then f
  else if 1/2 < r then f + 1
  else if f % 2 = 0 then f else f + 1

/-- Python `round(x, 2)` on the modelled rationals. -/
def pyRound2 (q : Rat) : Rat :=
  (roundHalfEven (q * 100) : Rat) / 100

/-- One `{"month": ..., "total": ...}` entry of the cost output. -/
structure MonthEntry where
  month : String
  total : Rat
deriving Repr, DecidableEq

/-- The `{"months": ..., "note": ...}` record of `_try_cost_last_5_months`. -/
structure CostOut where
  months : List MonthEntry
  note : String
deriving Repr, DecidableEq

/-- `_try_cost_last_5_months(subscription_id, credential)` given the current
month (absolute index) and the outcome of the retried cost query (the
`except` branch covers both non-throttle errors re-raised by `_retry` and an
exhausted retry budget).  On zero rows the months list stays empty; otherwise
exactly the five months `this_month - 4 .. this_month` are emitted in that
order, absent months totalling `0.0`. -/
def _try_cost_last_5_months (this_month : Nat)
    (queryResult : Except String (List (List CostVal))) : CostOut :=
  match queryResult with
  | .error e => { months := [], note := "Failed to query monthly cost totals: " ++ e }
  | .ok rows =>
    if rows.isEmpty then
      { months := [],
        note := "Cost query returned no rows (possible no spend, permissions, or API limits)." }
    else
      let by_month := _parse_monthly_rows rows
      let months_out := (List.range 5).map (fun j =>
        let i := 4 - j
        let key := monthKey (this_month - i)
        { month := key,
          total := pyRound2 ((dictGet? key by_month).getD 0) : MonthEntry })
      { months := months_out,
        note := "Cost totals retrieved (last 5 months) via Cost Management API (monthly granularity)." }

/-! ## governance_security_cost_reader.py: the other sub-collectors

The `HAS_*` SDK-availability flags are taken as true (the deployment imports
the SDKs); the early-return branches they guard only change the note text. -/

/-- One element of the `mgChain` list (a dict with `displayName`/`name`). -/
structure MgItem where
  displayName : Option String
  name : Option String
deriving Repr, DecidableEq

/-- Output record of `_try_resource_graph_mg_path`. -/
structure MgOut where
  path : List String
  leaf_mg : String
  note : String
deriving Repr, DecidableEq

/-- `_try_resource_graph_mg_path`: rows are the Resource Graph response data,
each row holding an optional `mgChain`; all failures are caught into the
note.  Chain items contribute `displayName or name` when truthy. -/
def _try_resource_graph_mg_path
    (argRows : Except String (List (Option (List MgItem)))) : MgOut :=
  match argRows with
  | .error e =>
    { path := [], leaf_mg := "", note := "Failed to resolve management group path: " ++ e }
  | .ok rows =>
    match rows with
    | [] => { path := [], leaf_mg := "", note := "No management group chain returned." }
    | row0 :: _ =>
      let chain := row0.getD []
      let path := chain.filterMap (fun item =>
        let disp := if pyTruthy item.displayName then item.displayName else item.name
        if pyTruthy disp then disp else none)
      { path := path
        leaf_mg := (path.getLast?).getD ""
        note := "Derived from Resource Graph." }

/-- One policy assignment object as listed by `policy_assignments.list()`. -/
structure PolicyAssignmentStub where
  name : Option String
  scope : Option String
  policy_definition_id : Option String
  enforcement_mode : Option String
deriving Repr, DecidableEq

/-- One normalized assignment row of `_try_list_policy_assignments`. -/
structure PolicyAssignmentRow where
  name : String
  scope : String
  definition_type : String
  enforcement : String
deriving Repr, DecidableEq

/-- Output record of `_try_list_policy_assignments`. -/
structure PolicyOut where
  assignment_count : Nat
  assignments : List PolicyAssignmentRow
  top_initiatives : List String
  note : String
deriving Repr, DecidableEq

/-- `_safe_str(x)`: `""` for `None`, else `str(x)`. -/
def _safe_str (x : Option String) : String := x.getD ""

/-- `_try_list_policy_assignments`: enumeration failure is caught into the
note; otherwise rows are normalized and initiative ids counted, the
`top_initiatives` being the initiative ids sorted by descending count
(stable). -/
def _try_list_policy_assignments
    (listResult : Except String (List PolicyAssignmentStub)) : PolicyOut :=
  match listResult with
  | .error e =>
    { assignment_count := 0, assignments := [], top_initiatives := [],
      note := "Failed to list policy assignments: " ++ e }
  | .ok stubs =>
    let assignments := stubs.map (fun a =>
      let pdid := pyLower (_safe_str a.policy_definition_id)
      { name := _safe_str a.name
        scope := _safe_str a.scope
        definition_type :=
          if pyContains pdid "policysetdefinitions" then "initiative" else "policy"
        enforcement :=
          if (_safe_str a.enforcement_mode).isEmpty then "Default"
          else _safe_str a.enforcement_mode : PolicyAssignmentRow })
    let initiatives := counterOf (stubs.filterMap (fun a =>
      let pdid := pyLower (_safe_str a.policy_definition_id)
      if pyContains pdid "policysetdefinitions" then some pdid else none))
    { assignment_count := assignments.length
      assignments := assignments
      top_initiatives := (sortCountDesc (fun p => p.2) initiatives).map (fun p => p.1)
      note := "Policy assignments enumerated at subscription scope." }

/-- One Defender pricing object (`name` / `pricing_tier`). -/
structure PricingStub where
  name : Option String
  pricing_tier : Option String
deriving Repr, DecidableEq

/-- One plan entry of the Defender output. -/
structure DefenderPlan where
  name : String
  tier : String
deriving Repr, DecidableEq

/-- Secure score pair. -/
structure SecureScore where
  current : Rat
  maxScore : Rat
deriving Repr, DecidableEq

/-- Output record of `_try_defender_posture`. -/
structure DefenderOut where
  plans : List DefenderPlan
  secure_score : Option SecureScore
  alerts_last_30d : Option Nat
  note : String
deriving Repr

/-- Environment of `_try_defender_posture`: client construction, the three
pricing call shapes tried in order (keyword, positional, no-arg), the secure
score listing, and the alerts count. -/
structure DefenderApi where
  clientInit : Except String Unit
  pricings_kw : Except String (List PricingStub)
  pricings_pos : Except String (List PricingStub)
  pricings_noarg : Except String (List PricingStub)
  secure_scores : Except String (List SecureScore)
  alerts_count : Except String Nat
deriving Repr

/-- `_try_defender_posture`: layered pricing-call fallback, guarded secure
score and alerts, note chosen by what succeeded; only client construction
failure reaches the outer `except`. -/
def _try_defender_posture (api : DefenderApi) : DefenderOut :=
  match api.clientInit with
  | .error e =>
    { plans := [], secure_score := none, alerts_last_30d := none,
      note := "Failed to query Defender posture: " ++ e }
  | .ok _ =>
    let pricings :=
      match api.pricings_kw with
      | .ok l => l
      | .error _ =>
        match api.pricings_pos with
        | .ok l => l
        | .error _ =>
          match api.pricings_noarg with
          | .ok l => l
          | .error _ => []
    let plans := pricings.map (fun p =>
      { name := p.name.getD "", tier := p.pricing_tier.getD "" : DefenderPlan })
    let secure_score :=
      match api.secure_scores with
      | .ok (s :: _) => some s
      | _ => none
    let alerts :=
      match api.alerts_count with
      | .ok n => some n
      | .error _ => none
    { plans := plans
      secure_score := secure_score
      alerts_last_30d := alerts
      note :=
        if secure_score.isSome || alerts.isSome then
          "Defender posture retrieved from Security Center."
        else if !plans.isEmpty then
          "Defender pricing/plans retrieved from Security Center."
        else
          "Failed to retrieve Defender posture (insufficient permissions or API limits)." }

/-- Subscription metadata record of `get_governance_security_cost_details`. -/
structure SubOut where
  subscription_id : String
  display_name : String
  state : String
  tenant_id : String
  note : String
deriving Repr, DecidableEq

/-- Environment of the whole governance/security/cost collector.
`cost_attempt i` is the outcome of the i-th `cm.query.usage` call (rows taken
through `_extract_cost_rows`, which yields `[]` on unknown shapes), and
`cost_jitter` the jitter values drawn by `_retry`. -/
structure GscApi where
  sub_get : Except String (Option String × Option String)
  mg_rows : Except String (List (Option (List MgItem)))
  policy_list : Except String (List PolicyAssignmentStub)
  cost_attempt : Nat → Except String (List (List CostVal))
  cost_jitter : Nat → Rat
  defender : DefenderApi

/-- Full governance/security/cost snapshot. -/
structure GscOut where
  subscription : SubOut
  management_group : MgOut
  policy : PolicyOut
  cost : CostOut
  defender : DefenderOut
deriving Repr

/-- `get_governance_security_cost_details(subscription_id, tenant_id,
credential)`: every sub-query is independently fault-tolerant, so the result
is a total function of the environment — no exception escapes. -/
def get_governance_security_cost_details
    (subscription_id tenant_id : String) (api : GscApi) (this_month : Nat) : GscOut :=
  let sub :=
    match api.sub_get with
    | .ok (dn, st) =>
      { subscription_id := subscription_id
        display_name := dn.getD ""
        state := st.getD ""
        tenant_id := tenant_id
        note := "Subscription metadata retrieved." : SubOut }
    | .error e =>
      { subscription_id := subscription_id
        display_name := ""
        state := ""
        tenant_id := tenant_id
        note := "Failed to retrieve subscription metadata: " ++ e }
  { subscription := sub
    management_group := _try_resource_graph_mg_path api.mg_rows
    policy := _try_list_policy_assignments api.policy_list
    cost := _try_cost_last_5_months this_month
      (_retry api.cost_attempt 1 api.cost_jitter).result
    defender := _try_defender_posture api.defender }

/-! ## storage_reader.py -/

/-- The account network rule set (optional on the properties object). -/
structure NetworkRuleSet where
  default_action : Option String
  virtual_network_rules : List Unit
  ip_rules : List Unit
deriving Repr, DecidableEq

/-- `storage_accounts.get_properties` result, restricted to the read fields. -/
structure SaProps where
  network_rule_set : Option NetworkRuleSet
  private_endpoint_connection_names : List (Option String)
  access_tier : Option String
deriving Repr, DecidableEq

/-- `blob_services.get_service_properties` result flags. -/
structure BlobProps where
  is_versioning_enabled : Bool
  change_feed_enabled : Bool
  delete_retention_enabled : Bool
  static_website_enabled : Bool
deriving Repr, DecidableEq

/-- The five capacity metrics (bytes) from `_get_capacity_metrics`. -/
structure CapMetrics where
  usedCapacity : Rat
  blobCapacity : Rat
  fileCapacity : Rat
  tableCapacity : Rat
  queueCapacity : Rat
deriving Repr, DecidableEq

/-- Zero metrics (the failure default of `_get_capacity_metrics`). -/
def zeroMetrics : CapMetrics :=
  { usedCapacity := 0, blobCapacity := 0, fileCapacity := 0,
    tableCapacity := 0, queueCapacity := 0 }

/-- One storage account from `storage_accounts.list()` together with the
outcomes of its per-account follow-up calls (properties, blob service
properties, monitor metrics), each guarded in the source. -/
structure SaStub where
  id : String
  name : String
  location : String
  kind : Option String
  sku_name : Option String
  minimum_tls_version : Option String
  enable_https_traffic_only : Bool
  public_network_access : Option String
  props : Except String SaProps
  blobProps : Except String BlobProps
  metrics : Except String CapMetrics
deriving Repr

/-- Environment of `get_storage_details`: the account enumeration (the one
unguarded call of the collector). -/
structure StorageApi where
  storage_accounts_list : Except String (List SaStub)
deriving Repr

/-- Python `a or b` on rationals (`0.0` is falsy). -/
def pyOrRat (a b : Rat) : Rat := if a = 0 then b else a

/-- `_bytes_fmt(n)`: `round(n / 1024**3, 2)`. -/
def _bytes_fmt (n : Rat) : Rat := pyRound2 (n / (1024 ^ 3 : Rat))

/-- One normalized account row of `get_storage_details`. -/
structure SaRow where
  name : String
  rg : String
  location : String
  kind : String
  sku : String
  min_tls : String
  https_only : Bool
  public_network_access : String
  network_default_action : String
  vnet_rules : Nat
  ip_rules : Nat
  private_endpoint_count : Nat
  private_endpoints : List String
  blob_versioning : Bool
  blob_change_feed : Bool
  blob_delete_retention : Bool
  static_website : Bool
  access_tier : String
  used_gb : Rat
deriving Repr, DecidableEq

/-- Build one account row, mirroring the per-account body of
`get_storage_details` (every follow-up call guarded to defaults). -/
def saRowOf (sa : SaStub) : SaRow :=
  let props : Option SaProps :=
    match sa.props with
    | .ok p => some p
    | .error _ => none
  let network_default_action :=
    match props with
    | some p =>
      match p.network_rule_set with
      | some nrs => nrs.default_action.getD ""
      | none => ""
    | none => ""
  let vnet_rules :=
    match props with
    | some p => (p.network_rule_set.map (fun nrs => nrs.virtual_network_rules.length)).getD 0
    | none => 0
  let ip_rules :=
    match props with
    | some p => (p.network_rule_set.map (fun nrs => nrs.ip_rules.length)).getD 0
    | none => 0
  let private_endpoints :=
    match props with
    | some p => p.private_endpoint_connection_names.map (fun n => n.getD "")
    | none => []
  let bp : Option BlobProps :=
    match sa.blobProps with
    | .ok b => some b
    | .error _ => none
  let used :=
    match sa.metrics with
    | .ok m => m
    | .error _ => zeroMetrics
  let used_gb := _bytes_fmt
    (pyOrRat used.usedCapacity
      (max used.blobCapacity 0 + max used.fileCapacity 0 +
       max used.tableCapacity 0 + max used.queueCapacity 0))
  { name := sa.name
    rg := id_to_rg sa.id
    location := sa.location
    kind := sa.kind.getD ""
    sku := sa.sku_name.getD ""
    min_tls := sa.minimum_tls_version.getD ""
    https_only := sa.enable_https_traffic_only
    public_network_access := sa.public_network_access.getD ""
    network_default_action := network_default_action
    vnet_rules := vnet_rules
    ip_rules := ip_rules
    private_endpoint_count := private_endpoints.length
    private_endpoints := private_endpoints
    blob_versioning := (bp.map (fun b => b.is_versioning_enabled)).getD false
    blob_change_feed := (bp.map (fun b => b.change_feed_enabled)).getD false
    blob_delete_retention := (bp.map (fun b => b.delete_retention_enabled)).getD false
    static_website := (bp.map (fun b => b.static_website_enabled)).getD false
    access_tier := (props.bind (fun p => p.access_tier)).getD ""
    used_gb := used_gb }

/-- Summary record of `get_storage_details`. -/
structure StorageSummary where
  total_accounts : Nat
  kinds : List (String × Nat)
  skus : List (String × Nat)
  private_endpoint_accounts : Nat
  public_allowed_accounts : Nat
  versioning_enabled_accounts : Nat
  static_website_accounts : Nat
  est_total_used_gb : Rat
deriving Repr, DecidableEq

/-- Result record of `get_storage_details`. -/
structure StorageData where
  summary : StorageSummary
  accounts : List SaRow
deriving Repr, DecidableEq

/-- `get_storage_details(subscription_id, credential, max_accounts)`: the
account enumeration itself is unguarded (failures propagate), the loop caps
detailed rows at `max_accounts`, every per-account call degrades to defaults,
and the `public_allowed` counter uses the quick signal
`public_allowed_signal`. -/
def get_storage_details (api : StorageApi) (max_accounts : Nat) :
    Except String StorageData := do
  let listed ← api.storage_accounts_list
  let rows := (listed.take max_accounts).map saRowOf
  let est_total_used_bytes :=
    ((listed.take max_accounts).map (fun sa =>
      match sa.metrics with
      | .ok m => m.usedCapacity
      | .error _ => 0)).foldl (fun a b => a + b) (0 : Rat)
  pure
    { summary :=
        { total_accounts := rows.length
          kinds := counterOf (rows.map (fun r => r.kind))
          skus := counterOf (rows.map (fun r => r.sku))
          private_endpoint_accounts :=
            (rows.map (fun r => r.private_endpoint_count)).foldl (fun a b => a + b) 0
          public_allowed_accounts := rows.countP (fun r =>
            public_allowed_signal r.public_network_access r.network_default_action)
          versioning_enabled_accounts := rows.countP (fun r => r.blob_versioning)
          static_website_accounts := rows.countP (fun r => r.static_website)
          est_total_used_gb :=
            if est_total_used_bytes = 0 then 0
            else pyRound2 (est_total_used_bytes / (1024 ^ 3 : Rat)) }
      accounts := rows }

/-! ## network_reader.py -/

/-- A generic listed resource (id and location) as returned by
`_list_by_type` and the various `list_all` calls. -/
structure ResIdStub where
  id : String
  location : Option String
deriving Repr, DecidableEq

/-- One subnet as listed by `subnets.list`. -/
structure SubnetStub where
  name : String
  nsg_id : Option String
  route_table_id : Option String
deriving Repr, DecidableEq

/-- One VNet from `virtual_networks.list_all()` together with the outcomes
of its per-VNet follow-up calls (peerings, subnets), each guarded in the
source (a mid-iteration subnet failure is modelled as a failed listing). -/
structure VnetStub where
  id : String
  name : String
  location : String
  address_prefixes : Option (List String)
  peerings : Except String Nat
  subnets : Except String (List SubnetStub)
deriving Repr

/-- Environment of `get_network_details`.  The six `list_all` calls in the
first block and the private-endpoint listing are guarded (`[]` on failure);
the four `_list_by_type` calls and the VNet enumeration are unguarded. -/
structure NetworkApi where
  nsgs : Except String (List ResIdStub)
  route_tables : Except String (List ResIdStub)
  app_gateways : Except String (List ResIdStub)
  load_balancers : Except String (List ResIdStub)
  public_ips : Except String (List ResIdStub)
  azure_firewalls : Except String (List ResIdStub)
  gateways_res : Except String (List ResIdStub)
  er_circuits_res : Except String (List ResIdStub)
  priv_dns_res : Except String (List ResIdStub)
  priv_dns_links : Except String (List ResIdStub)
  private_eps : Except String (List Unit)
  vnets_list_all : Except String (List VnetStub)
deriving Repr

/-- One subnet row with NSG / route-table names or the `"None"` sentinel. -/
structure SubnetRow where
  name : String
  nsg : String
  udr : String
deriving Repr, DecidableEq

/-- One VNet row of `get_network_details`. -/
structure VnetRow where
  name : String
  rg : String
  location : String
  address_space : List String
  peered : Bool
  peerings_count : Nat
  subnets : List SubnetRow
  has_gateway : Bool
  has_firewall : Bool
deriving Repr, DecidableEq

/-- Last path segment of a resource id when the id is truthy, else the
`"None"` sentinel (subnet NSG / UDR resolution). -/
def lastSegOrNone (oid : Option String) : String :=
  if pyTruthy oid then (((splitOnChar '/' (oid.getD ""))).getLast?).getD "" else "None"

/-- Build one VNet row (heuristic gateway/firewall co-presence included). -/
def vnetRowOf (gateway_rg_loc : List (String × Option String))
    (firewall_locs : List String) (v : VnetStub) : VnetRow :=
  let rg := id_to_rg v.id
  let (peered, peer_ct) :=
    match v.peerings with
    | .ok n => (decide (0 < n), n)
    | .error _ => (false, 0)
  let subnets_out :=
    match v.subnets with
    | .ok sns => sns.map (fun sn =>
        { name := sn.name
          nsg := lastSegOrNone sn.nsg_id
          udr := lastSegOrNone sn.route_table_id : SubnetRow })
    | .error _ => []
  { name := v.name
    rg := rg
    location := v.location
    address_space := v.address_prefixes.getD []
    peered := peered
    peerings_count := peer_ct
    subnets := subnets_out
    has_gateway := gateway_rg_loc.contains (rg, some v.location)
    has_firewall := firewall_locs.contains v.location }

/-- The VNet loop of `get_network_details`: a row is appended, then the loop
breaks once `len(vnets) >= max_vnets` (so with a cap of `0` one row is still
produced from a non-empty listing, exactly as the source does). -/
def vnetLoop (mk : VnetStub → VnetRow) (max_vnets : Nat) (countSoFar : Nat) :
    List VnetStub → List VnetRow
  | [] => []
  | v :: rest =>
    let row := mk v
    if max_vnets ≤ countSoFar + 1 then [row]
    else row :: vnetLoop mk max_vnets (countSoFar + 1) rest

/-- Summary counts of `get_network_details`. -/
structure NetCounts where
  vnets : Nat
  nsgs : Nat
  route_tables : Nat
  application_gateways : Nat
  load_balancers : Nat
  public_ips : Nat
  vnet_gateways : Nat
  expressroute_circuits : Nat
  private_endpoints : Nat
  private_dns_zones : Nat
  private_dns_links : Nat
  azure_firewalls : Nat
deriving Repr, DecidableEq

/-- Result record of `get_network_details`. -/
structure NetData where
  counts : NetCounts
  vnets : List VnetRow
deriving Repr, DecidableEq

/-- Failure-to-empty guard used for the wrapped `list_all` calls. -/
def orEmpty (r : Except String (List α)) : List α :=
  match r with
  | .ok l => l
  | .error _ => []

/-- `get_network_details(subscription_id, credential, max_vnets)`: guarded
subscription-wide counts, then the four unguarded `_list_by_type` calls, the
guarded private-endpoint listing, and the unguarded VNet enumeration with
per-VNet degradations. -/
def get_network_details (api : NetworkApi) (max_vnets : Nat) :
    Except String NetData := do
  let nsgs := orEmpty api.nsgs
  let route_tables := orEmpty api.route_tables
  let app_gateways := orEmpty api.app_gateways
  let load_balancers := orEmpty api.load_balancers
  let public_ips := orEmpty api.public_ips
  let firewalls := orEmpty api.azure_firewalls
  let gateways_res ← api.gateways_res
  let er_circuits_res ← api.er_circuits_res
  let priv_dns_res ← api.priv_dns_res
  let priv_dns_links ← api.priv_dns_links
  let private_eps := orEmpty api.private_eps
  let gateway_rg_loc := gateways_res.map (fun g => (id_to_rg g.id, g.location))
  let firewall_locs := firewalls.filterMap (fun fw =>
    if pyTruthy fw.location then fw.location else none)
  let vstubs ← api.vnets_list_all
  let vnets := vnetLoop (vnetRowOf gateway_rg_loc firewall_locs) max_vnets 0 vstubs
  pure
    { counts :=
        { vnets := vnets.length
          nsgs := nsgs.length
          route_tables := route_tables.length
          application_gateways := app_gateways.length
          load_balancers := load_balancers.length
          public_ips := public_ips.length
          vnet_gateways := gateways_res.length
          expressroute_circuits := er_circuits_res.length
          private_endpoints := private_eps.length
          private_dns_zones := priv_dns_res.length
          private_dns_links := priv_dns_links.length
          azure_firewalls := firewalls.length }
      vnets := vnets }

/-! ## rg_reader.py -/

/-- One resource group from `resource_groups.list()` together with the
outcome of its guarded contained-resources listing (the listed types, `None`
kept as `none`). -/
structure RgStub where
  name : String
  location : String
  tags : Option (List (String × String))
  resources : Except String (List (Option String))
deriving Repr

/-- Environment of `get_rg_details`: the unguarded group enumeration. -/
structure RgApi where
  resource_groups_list : Except String (List RgStub)
deriving Repr

/-- One group row of `get_rg_details`. -/
structure RgRow where
  name : String
  location : String
  tags : String
  resource_count : Nat
  top_types : String
deriving Repr, DecidableEq

/-- Result record of `get_rg_details`. -/
structure RgData where
  total_rgs : Nat
  groups : List RgRow
deriving Repr, DecidableEq

/-- `_top_types(items, k)`: the `k` most common type strings with counts,
descending count with first-encountered tie order (`Counter.most_common`). -/
def _top_types (items : List String) (k : Nat) : List String :=
  ((sortCountDesc (fun p => p.2) (counterOf items)).take k).map
    (fun p => p.1 ++ " (" ++ toString p.2 ++ ")")

/-- `_fmt_tags(tags, limit=5)`: `"None"` for empty, else the first five
`k=v` pairs joined, with a `(+n more)` suffix when truncated. -/
def _fmt_tags (tags : List (String × String)) : String :=
  if tags.isEmpty then "None"
  else
    let items := (tags.take 5).map (fun p => p.1 ++ "=" ++ p.2)
    let more : Int := (tags.length : Int) - (items.length : Int)
    String.intercalate ", " items ++
      (if 0 < more then " (+" ++ toString more ++ " more)" else "")

/-- Build one group row (guarded resource listing degrades to zero/empty). -/
def rgRowOf (rg : RgStub) : RgRow :=
  let (res_count, res_types) :=
    match rg.resources with
    | .ok rs => (rs.length, rs.filterMap (fun t =>
        if pyTruthy t then some (pyLower (t.getD "")) else none))
    | .error _ => (0, [])
  let top_types := _top_types res_types 4
  { name := rg.name
    location := rg.location
    tags := _fmt_tags (rg.tags.getD [])
    resource_count := res_count
    top_types :=
      if top_types.isEmpty then "—" else String.intercalate ", " top_types }

/-- `get_rg_details(subscription_id, credential, max_groups)`: the group
enumeration is unguarded; detailed rows cover the first `max_groups` groups
while `total_rgs` is the full count. -/
def get_rg_details (api : RgApi) (max_groups : Nat) : Except String RgData := do
  let rgs ← api.resource_groups_list
  pure
    { total_rgs := rgs.length
      groups := (rgs.take max_groups).map rgRowOf }

/-! ## audit_runner.py: run_audit

The HTML rendering and file writes are pure string construction and disk
effects outside the claims; the per-type note derivation
(`describe_resource_types`) is a pure total table lookup over the inventory
rows and is likewise elided — neither can raise an exception that changes the
propagation behaviour modelled here. -/

/-- Outcomes of the six narrative-generation calls (each may raise). -/
structure AiApi where
  overview : Except String String
  vm : Except String String
  storage : Except String String
  network : Except String String
  gsc : Except String String
  rg : Except String String
deriving Repr

/-- The complete environment of one `run_audit` invocation. -/
structure AuditApi where
  inv_arg : Except String (List InvRow)
  inv_arm : Except String (List ResourceStub)
  vm : VmApi
  storage : StorageApi
  network : NetworkApi
  rg : RgApi
  gsc : GscApi
  ai : AiApi

/-- The section data `run_audit` assembles into report and result object. -/
structure AuditSections where
  inventory : List InvRow
  vm_data : VmData
  storage_data : StorageData
  network_data : NetData
  rg_data : RgData
  gsc_data : GscOut
  ai_overview : String
  ai_vm : String
  ai_storage : String
  ai_network : String
  ai_gsc : String
  ai_rg : String

/-- `run_audit(subscription_id, credential, ...)` (collector phase): the
inventory aggregation never raises, the four detailed collectors are invoked
bare (their failures propagate out of `run_audit`), the governance snapshot
is total, and every narrative call goes through `_safe_ai`.  The caps are the
call-site defaults (`sample_size=5`, `max_vms=100`, `max_accounts=200`,
`max_vnets=50`, `max_groups=100`). -/
def run_audit (subscription_id tenant_id : String) (api : AuditApi)
    (this_month : Nat) : Except String AuditSections := do
  let types_rows := audit_subscription_resources api.inv_arg api.inv_arm 5
  let vm_data ← get_vm_details api.vm 100
  let storage_data ← get_storage_details api.storage 200
  let network_data ← get_network_details api.network 50
  let rg_data ← get_rg_details api.rg 100
  let gsc_data :=
    get_governance_security_cost_details subscription_id tenant_id api.gsc this_month
  let ai_overview := safe_ai (fun _ => api.ai.overview) types_rows
  let ai_vm := safe_ai (fun _ => api.ai.vm) vm_data
  let ai_storage := safe_ai (fun _ => api.ai.storage) storage_data
  let ai_network := safe_ai (fun _ => api.ai.network) network_data
  let ai_gsc := safe_ai (fun _ => api.ai.gsc) gsc_data
  let ai_rg := safe_ai (fun _ => api.ai.rg) rg_data
  pure
    { inventory := types_rows
      vm_data := vm_data
      storage_data := storage_data
      network_data := network_data
      rg_data := rg_data
      gsc_data := gsc_data
      ai_overview := ai_overview
      ai_vm := ai_vm
      ai_storage := ai_storage
      ai_network := ai_network
      ai_gsc := ai_gsc
      ai_rg := ai_rg }

/-! ## ai_analyzer prompt context

Modelled from the spec: the `set_prompt_context` function imported by
`audit_runner.py` and `main.py` is not part of the provided sources (only its
call sites are).  Per the spec, prompt-customization context is per-run,
thread/task-isolated state realised with `contextvars`: each task carries
its own context mapping, `set_prompt_context` writes only the calling task's
slot, and narrative-generation calls read the calling task's slot. -/

/-- A per-run prompt customization (system prompt and steering/angle text). -/
structure PromptCtx where
  system_prompt : Option String
  angle_text : Option String
deriving Repr, DecidableEq

/-- Modelled from the spec: the ambient contextvar store, one optional
`PromptCtx` slot per task identifier. -/
def PromptStore (Tid : Type) : Type := Tid → Option PromptCtx

/-- Modelled from the spec: `set_prompt_context(system_prompt, angle_text)`
executed by task `tid` updates only that task's slot. -/
def set_prompt_context [DecidableEq Tid] (tid : Tid) (ctx : PromptCtx)
    (st : PromptStore Tid) : PromptStore Tid :=
  fun t => if t = tid then some ctx else st t

/-- Modelled from the spec: the customization a narrative-generation call
running in task `tid` observes. -/
def get_prompt_context (tid : Tid) (st : PromptStore Tid) : Option PromptCtx :=
  st tid

/-! ## Concrete environments used by witnesses and counterexamples -/

/-- An empty storage listing (successful enumeration, zero accounts). -/
def storageListW : List SaStub := []

/-- Storage environment returning `storageListW`. -/
def storageApiW : StorageApi := { storage_accounts_list := Except.ok storageListW }

/-- The collector output on `storageApiW` (spelled out for the witness). -/
def storageDataW : StorageData :=
  { summary :=
      { total_accounts := 0
        kinds := []
        skus := []
        private_endpoint_accounts := 0
        public_allowed_accounts := 0
        versioning_enabled_accounts := 0
        static_website_accounts := 0
        est_total_used_gb := 0 }
    accounts := [] }

/-- A VM environment whose three listings all succeed with no resources. -/
def vmApiTrivial : VmApi :=
  { virtual_machines_list_all := Except.ok []
    disks_list := Except.ok []
    vmss_list_all := Except.ok [] }

/-- The VM collector output on `vmApiTrivial`. -/
def vmDataTrivial : VmData :=
  { summary :=
      { total_vms_all := 0
        total_vms := 0
        os_counts := []
        size_top := []
        power_counts := []
        spot_vms := 0
        avset_attached_vms := 0
        identity_vms := 0 }
    vms := []
    total_disks := 0
    unattached_disks := 0
    vmss_count := 0 }

/-- A Defender environment whose every call succeeds empty. -/
def defenderApiTrivial : DefenderApi :=
  { clientInit := Except.ok ()
    pricings_kw := Except.ok []
    pricings_pos := Except.ok []
    pricings_noarg := Except.ok []
    secure_scores := Except.ok []
    alerts_count := Except.ok 0 }

/-- A governance environment whose every call succeeds empty. -/
def gscApiTrivial : GscApi :=
  { sub_get := Except.ok (some "Prod", some "Enabled")
    mg_rows := Except.ok []
    policy_list := Except.ok []
    cost_attempt := fun _ => Except.ok []
    cost_jitter := fun _ => 0
    defender := defenderApiTrivial }

/-- A network environment whose every call succeeds with no resources. -/
def networkApiTrivial : NetworkApi :=
  { nsgs := Except.ok []
    route_tables := Except.ok []
    app_gateways := Except.ok []
    load_balancers := Except.ok []
    public_ips := Except.ok []
    azure_firewalls := Except.ok []
    gateways_res := Except.ok []
    er_circuits_res := Except.ok []
    priv_dns_res := Except.ok []
    priv_dns_links := Except.ok []
    private_eps := Except.ok []
    vnets_list_all := Except.ok [] }

/-- A resource-group environment listing no groups. -/
def rgApiTrivial : RgApi := { resource_groups_list := Except.ok [] }

/-- A small concrete ARM resource listing (two VMs, one storage account). -/
def invResourcesW : List ResourceStub :=
  [{ rtype := some "Microsoft.Compute/virtualMachines", name := some "vm1" },
   { rtype := some "Microsoft.Storage/storageAccounts", name := some "sa1" },
   { rtype := some "Microsoft.Compute/virtualMachines", name := some "vm2" }]

/-- Narrative calls that all succeed. -/
def aiApiTrivial : AiApi :=
  { overview := Except.ok "ok"
    vm := Except.ok "ok"
    storage := Except.ok "ok"
    network := Except.ok "ok"
    gsc := Except.ok "ok"
    rg := Except.ok "ok" }

/-- An audit environment in which only the VM listing fails (with an
authorization error): every other underlying call succeeds. -/
def auditApiBadVmList : AuditApi :=
  { inv_arg := Except.ok []
    inv_arm := Except.ok []
    vm :=
      { virtual_machines_list_all := Except.error "AuthorizationFailed"
        disks_list := Except.ok []
        vmss_list_all := Except.ok [] }
    storage := storageApiW
    network := networkApiTrivial
    rg := rgApiTrivial
    gsc := gscApiTrivial
    ai := aiApiTrivial }

/-! ## Helper lemmas -/

@[simp] theorem exc_bind_ok (a : α) (f : α → Except String β) :
    (Except.ok a >>= f : Except String β) = f a := rfl

@[simp] theorem exc_bind_error (e : String) (f : α → Except String β) :
    (Except.error e >>= f : Except String β) = Except.error e := rfl

@[simp] theorem exc_pure_eq (a : α) :
    (pure a : Except String α) = Except.ok a := rfl

/-! ## C9: StaticTokenCredential returns a fixed token -/

/-- C9: for every call to `StaticTokenCredential.get_token`, with any scopes
and keyword arguments and at any time after construction, the returned token
is exactly the construction-time token and the expiry is construction time
plus 3300 seconds (the default `expires_in`); the result never varies across
calls, so the credential never refreshes. -/
theorem static_token_credential_fixed (t0 : Int)
    (tok : String) (t1 t2 : Int) (scopes1 scopes2 : List String)
    (kw1 kw2 : List (String × String)) :
    (StaticTokenCredential.init t0 tok defaultExpiresIn).get_token t1 scopes1 kw1
      = { token := tok, expires_on := t0 + 3300 } ∧
    (StaticTokenCredential.init t0 tok defaultExpiresIn).get_token t1 scopes1 kw1
      = (StaticTokenCredential.init t0 tok defaultExpiresIn).get_token t2 scopes2 kw2 :=
  ⟨rfl, rfl⟩

/-! ## C6: rendered storage exposure classification -/

/-- C6: the rendered exposure is `PrivateOnly` iff both
`public_network_access` lower-cases to `"disabled"` and
`network_default_action` lower-cases to `"deny"`; every other combination
renders `PublicAllowed`. -/
theorem storage_exposure_classification (pna nda : String) :
    (render_storage_exposure pna nda = "PrivateOnly" ↔
      (pyLower pna = "disabled" ∧ pyLower nda = "deny")) ∧
    (¬ (pyLower pna = "disabled" ∧ pyLower nda = "deny") →
      render_storage_exposure pna nda = "PublicAllowed") := by
  unfold render_storage_exposure
  by_cases h1 : pyLower pna = "disabled" <;> by_cases h2 : pyLower nda = "deny" <;>
    simp [h1, h2]

/-- Witness for C6 at a concrete non-private combination. -/
theorem storage_exposure_classification_witness :
    render_storage_exposure "Enabled" "Deny" = "PublicAllowed" :=
  (storage_exposure_classification "Enabled" "Deny").2 (by decide)

/-! ## C8: narrative failure placeholder (corrected) -/

/-- C8 counterexample: on a failing narrative call the orchestrator
substitutes `"(AI narrative unavailable: <error>)"`, which differs from the
claimed exact form `"(narrative unavailable: <error>)"`. -/
theorem narrative_placeholder_counterexample :
    safe_ai (fun _ : Unit => Except.error "boom") () = "(AI narrative unavailable: boom)" ∧
    safe_ai (fun _ : Unit => Except.error "boom") () ≠ "(narrative unavailable: boom)" := by
  exact ⟨rfl, by decide⟩

/-- C8 (amended): whenever a narrative-generation call raises, `_safe_ai`
substitutes exactly `"(AI narrative unavailable: <error>)"` embedding the
error message, and returns normally (the run continues). -/
theorem narrative_placeholder (fn : α → Except String String) (arg : α) (e : String)
    (h : fn arg = Except.error e) :
    safe_ai fn arg = "(AI narrative unavailable: " ++ e ++ ")" := by
  unfold safe_ai
  rw [h]

/-- Witness for C8 (amended) at a concrete failing call. -/
theorem narrative_placeholder_witness :
    safe_ai (fun _ : Unit => Except.error "quota exceeded") ()
      = "(AI narrative unavailable: quota exceeded)" :=
  narrative_placeholder (fun _ : Unit => Except.error "quota exceeded") () "quota exceeded" rfl

/-! ## C3: per-run prompt-context isolation (spec-modelled) -/

/-- C3: with the contextvar store modelled from the spec, a
`set_prompt_context` performed by one run/task is invisible to every other
task: narrative calls of a different task still observe their own (old)
customization, while the writing task observes exactly what it set. -/
theorem prompt_context_isolation (Tid : Type) [DecidableEq Tid] (t1 t2 : Tid)
    (hne : t1 ≠ t2) (st : PromptStore Tid) (ctx : PromptCtx) :
    get_prompt_context t2 (set_prompt_context t1 ctx st) = get_prompt_context t2 st ∧
    get_prompt_context t1 (set_prompt_context t1 ctx st) = some ctx := by
  unfold get_prompt_context set_prompt_context
  exact ⟨by rw [if_neg (Ne.symm hne)], by rw [if_pos rfl]⟩

/-- Witness for C3 at two concrete distinct task ids. -/
theorem prompt_context_isolation_witness :
    get_prompt_context 1 (set_prompt_context 0
        { system_prompt := some "sp", angle_text := some "angle" }
        (fun _ : Nat => none)) = none ∧
    get_prompt_context 0 (set_prompt_context 0
        { system_prompt := some "sp", angle_text := some "angle" }
        (fun _ : Nat => none))
      = some { system_prompt := some "sp", angle_text := some "angle" } := by
  have h := prompt_context_isolation Nat 0 1 (by decide) (fun _ => none)
    { system_prompt := some "sp", angle_text := some "angle" }
  exact ⟨h.1, h.2⟩

/-! ## C10: the storage public-exposure quick-signal counter -/

/-- C10: the summary counter `public_allowed_accounts` counts exactly the
enumerated accounts whose lower-cased `public_network_access` differs from
`"disabled"` or whose lower-cased `network_default_action` equals `"allow"`;
an account with `public_network_access = "disabled"` and an empty
`network_default_action` is not counted, although the renderer classifies the
same pair as `PublicAllowed`. -/
theorem public_allowed_counter_spec (api : StorageApi) (listed : List SaStub)
    (d : StorageData) (h : api.storage_accounts_list = Except.ok listed)
    (hd : get_storage_details api 200 = Except.ok d) :
    d.summary.public_allowed_accounts =
      (d.accounts.filter (fun r =>
        decide (pyLower r.public_network_access ≠ "disabled" ∨
          pyLower r.network_default_action = "allow"))).length ∧
    public_allowed_signal "disabled" "" = false ∧
    render_storage_exposure "disabled" "" = "PublicAllowed" := by
  refine ⟨?_, by decide, by decide⟩
  unfold get_storage_details at hd
  rw [h] at hd
  simp only [exc_bind_ok, exc_pure_eq, Except.ok.injEq] at hd
  subst hd
  simp only [List.countP_eq_length_filter]
  refine congrArg List.length (List.filter_congr ?_)
  intro r _
  unfold public_allowed_signal
  by_cases h1 : pyLower r.public_network_access = "disabled" <;>
    by_cases h2 : pyLower r.network_default_action = "allow" <;>
      simp [h1, h2]

/-- Witness for C10 on a one-account listing whose properties call failed
(`network_default_action` defaults to `""`) with public access disabled. -/
theorem public_allowed_counter_spec_witness :
    (storageDataW.summary.public_allowed_accounts =
      (storageDataW.accounts.filter (fun r =>
        decide (pyLower r.public_network_access ≠ "disabled" ∨
          pyLower r.network_default_action = "allow"))).length) ∧
    public_allowed_signal "disabled" "" = false ∧
    render_storage_exposure "disabled" "" = "PublicAllowed" :=
  public_allowed_counter_spec storageApiW storageListW storageDataW rfl (by rfl)

/-! ## C7: detail cap versus true total in the VM collector -/

/-- C7: whenever `get_vm_details` returns, the detailed `vms` list is no
longer than `total_vms_all` (the true subscription-wide count) and no longer
than the configured cap `max_vms`. -/
theorem vm_detail_cap (api : VmApi) (max_vms : Nat) (d : VmData)
    (h : get_vm_details api max_vms = Except.ok d) :
    d.vms.length ≤ d.summary.total_vms_all ∧ d.vms.length ≤ max_vms := by
  unfold get_vm_details at h
  cases hl : api.virtual_machines_list_all with
  | error e => rw [hl] at h; simp at h
  | ok l =>
    rw [hl] at h
    cases hd2 : api.disks_list with
    | error e => rw [hd2] at h; simp at h
    | ok ds =>
      rw [hd2] at h
      simp only [exc_bind_ok, exc_pure_eq, Except.ok.injEq] at h
      subst h
      simp only [List.length_map, List.length_take]
      omega

/-- Witness for C7 on an empty subscription with the default cap. -/
theorem vm_detail_cap_witness :
    vmDataTrivial.vms.length ≤ vmDataTrivial.summary.total_vms_all ∧
    vmDataTrivial.vms.length ≤ 100 :=
  vm_detail_cap vmApiTrivial 100 vmDataTrivial (by rfl)

/-! ## C2: the five-month cost window (corrected) -/

/-- C2 counterexample: on an upstream query that returned zero rows the
collector returns an empty months list (with an explanatory note), not the
claimed five synthesized entries. -/
theorem cost_months_counterexample :
    (_try_cost_last_5_months 24321 (Except.ok ([] : List (List CostVal)))).months = [] ∧
    (_try_cost_last_5_months 24321 (Except.ok ([] : List (List CostVal)))).months.length ≠ 5 :=
  ⟨rfl, by decide⟩

/-- C2 (amended): whenever the upstream query yields a NON-EMPTY row list,
the months list has exactly 5 entries in chronological order whose keys are
the 5 consecutive calendar months ending at the current month, each absent
month totalling `round(0.0, 2) = 0.0`; an empty row list instead yields an
empty months list. -/
theorem cost_months_amended (this_month : Nat) (rows : List (List CostVal))
    (h4 : 4 ≤ this_month) (hne : rows ≠ []) :
    (_try_cost_last_5_months this_month (Except.ok rows)).months =
      [0, 1, 2, 3, 4].map (fun k =>
        { month := monthKey (this_month - 4 + k)
          total := pyRound2 ((dictGet? (monthKey (this_month - 4 + k))
            (_parse_monthly_rows rows)).getD 0) }) ∧
    (_try_cost_last_5_months this_month (Except.ok rows)).months.length = 5 ∧
    pyRound2 0 = 0 := by
  have hE : rows.isEmpty = false := by
    cases rows with
    | nil => simp at hne
    | cons a l => rfl
  have hmap :
      (_try_cost_last_5_months this_month (Except.ok rows)).months =
        (List.range 5).map (fun j =>
          { month := monthKey (this_month - (4 - j))
            total := pyRound2 ((dictGet? (monthKey (this_month - (4 - j)))
              (_parse_monthly_rows rows)).getD 0) : MonthEntry }) := by
    unfold _try_cost_last_5_months
    simp [hE]
  have hsub : ∀ k : Nat, k ≤ 4 → this_month - (4 - k) = this_month - 4 + k := by
    intro k hk
    omega
  refine ⟨?_, ?_, ?_⟩
  · rw [hmap]
    have hr : List.range 5 = [0, 1, 2, 3, 4] := by decide
    rw [hr]
    simp only [List.map]
    rw [hsub 0 (by omega), hsub 1 (by omega), hsub 2 (by omega),
      hsub 3 (by omega), hsub 4 (by omega)]
  · rw [hmap]
    simp
  · unfold pyRound2 roundHalfEven
    norm_num

/-- Witness for C2 (amended) on a single parsed row with the current month
2026-10 (absolute index 24321). -/
theorem cost_months_amended_witness :
    (_try_cost_last_5_months 24321
      (Except.ok [[CostVal.str "2026-09", CostVal.num 100]])).months.length = 5 :=
  (cost_months_amended 24321 [[CostVal.str "2026-09", CostVal.num 100]]
    (by norm_num) (by simp)).2.1

/-! ## C4: the cost-query retry wrapper -/

theorem retryLoop_attempts_le (fn : Nat → Except String α) (b : Rat) (j : Nat → Rat) :
    ∀ (n i : Nat) (last : String), (retryLoop fn b j i n last).attemptsMade ≤ n := by
  intro n
  induction n with
  | zero => intro i last; exact Nat.le_refl 0
  | succ n ih =>
    intro i last
    unfold retryLoop
    cases hfn : fn i with
    | ok v => simp
    | error e =>
      by_cases ht : _is_throttle_exc e
      · simp only [ht, if_true]
        exact Nat.succ_le_succ (ih (i + 1) e)
      · simp [ht]

theorem retryLoop_delays_shape (fn : Nat → Except String α) (b : Rat) (j : Nat → Rat) :
    ∀ (n i : Nat) (last : String),
      (retryLoop fn b j i n last).delays =
        (List.range (retryLoop fn b j i n last).delays.length).map
          (fun k => b * 2 ^ (i + k) + j (i + k)) := by
  intro n
  induction n with
  | zero => intro i last; rfl
  | succ n ih =>
    intro i last
    unfold retryLoop
    cases hfn : fn i with
    | ok v => rfl
    | error e =>
      by_cases ht : _is_throttle_exc e
      · simp only [ht, if_true, List.length_cons, List.range_succ_eq_map,
          List.map_cons, List.map_map, Nat.add_zero]
        congr 1
        rw [ih (i + 1) e]
        simp only [List.length_map, List.length_range]
        apply List.map_congr_left
        intro k _
        simp only [Function.comp]
        have hidx : i + 1 + k = i + (k + 1) := by omega
        rw [hidx]
      · simp [ht]

theorem retryLoop_nonthrottle_raises (fn : Nat → Except String α) (b : Rat)
    (j : Nat → Rat) :
    ∀ (m n i : Nat) (last e : String),
      (∀ k, k < m → ∃ ek, fn (i + k) = Except.error ek ∧ _is_throttle_exc ek = true) →
      fn (i + m) = Except.error e → _is_throttle_exc e = false → m < n →
      (retryLoop fn b j i n last).result = Except.error e ∧
      (retryLoop fn b j i n last).attemptsMade = m + 1 := by
  intro m
  induction m with
  | zero =>
    intro n i last e _ hf ht hmn
    cases n with
    | zero => omega
    | succ n =>
      rw [Nat.add_zero] at hf
      unfold retryLoop
      rw [hf]
      simp [ht]
  | succ m ih =>
    intro n i last e hpre hf ht hmn
    cases n with
    | zero => omega
    | succ n =>
      obtain ⟨e0, hf0, ht0⟩ := hpre 0 (by omega)
      rw [Nat.add_zero] at hf0
      unfold retryLoop
      rw [hf0]
      simp only [ht0, if_true]
      have hpre' : ∀ k, k < m →
          ∃ ek, fn (i + 1 + k) = Except.error ek ∧ _is_throttle_exc ek = true := by
        intro k hk
        obtain ⟨ek, h1, h2⟩ := hpre (k + 1) (by omega)
        refine ⟨ek, ?_, h2⟩
        rw [show i + 1 + k = i + (k + 1) from by omega]
        exact h1
      have hf' : fn (i + 1 + m) = Except.error e := by
        rw [show i + 1 + m = i + (m + 1) from by omega]
        exact hf
      have hrec := ih n (i + 1) e0 e hpre' hf' ht (by omega)
      exact ⟨hrec.1, by rw [hrec.2]⟩

/-- C4: `_retry` (with its default `attempts=7`) makes at most 7 calls; the
k-th sleep is exactly `base_delay * 2**k` plus the k-th jitter draw, hence
lies in `[base_delay * 2**k, base_delay * 2**k + 0.35)`; and a non-throttling
error at any attempt (after only throttled failures) is re-raised immediately
with no further attempts. -/
theorem retry_policy (fn : Nat → Except String α) (base : Rat) (jitter : Nat → Rat)
    (hj : ∀ i, 0 ≤ jitter i ∧ jitter i < 7/20) :
    (_retry fn base jitter).attemptsMade ≤ 7 ∧
    ((_retry fn base jitter).delays =
      (List.range (_retry fn base jitter).delays.length).map
        (fun i => base * 2 ^ i + jitter i)) ∧
    (∀ d ∈ (_retry fn base jitter).delays, ∃ i,
      d = base * 2 ^ i + jitter i ∧ base * 2 ^ i ≤ d ∧ d < base * 2 ^ i + 7/20) ∧
    (∀ m e, fn m = Except.error e → _is_throttle_exc e = false →
      (∀ k, k < m → ∃ ek, fn k = Except.error ek ∧ _is_throttle_exc ek = true) →
      m < 7 →
      (_retry fn base jitter).result = Except.error e ∧
      (_retry fn base jitter).attemptsMade = m + 1) := by
  unfold _retry
  have hshape := retryLoop_delays_shape fn base jitter 7 0 ""
  simp only [Nat.zero_add] at hshape
  refine ⟨retryLoop_attempts_le fn base jitter 7 0 "", hshape, ?_, ?_⟩
  · intro d hd
    rw [hshape] at hd
    obtain ⟨i, _, hi⟩ := List.mem_map.mp hd
    refine ⟨i, hi.symm, ?_, ?_⟩
    · rw [← hi]
      exact le_add_of_nonneg_right (hj i).1
    · rw [← hi]
      exact add_lt_add_left (hj i).2 _
  · intro m e hf ht hpre hm7
    have := retryLoop_nonthrottle_raises fn base jitter m 7 0 "" e
      (by intro k hk; obtain ⟨ek, h1, h2⟩ := hpre k hk
          exact ⟨ek, by rw [Nat.zero_add]; exact h1, h2⟩)
      (by rw [Nat.zero_add]; exact hf) ht hm7
    exact this

/-- Witness for C4: two throttled failures then success, zero jitter. -/
theorem retry_policy_witness :
    (_retry (fun i => if i < 2 then Except.error "HTTP 429 Too Many Requests"
        else Except.ok (5 : Nat)) 1 (fun _ => 0)).attemptsMade ≤ 7 :=
  (retry_policy (fun i => if i < 2 then Except.error "HTTP 429 Too Many Requests"
      else Except.ok (5 : Nat)) 1 (fun _ => 0)
    (fun _ => ⟨le_refl 0, by norm_num⟩)).1

/-! ## C5: inventory two-tier strategy -/

theorem insertCountDesc_perm (count : α → Nat) (x : α) :
    ∀ l : List α, List.Perm (insertCountDesc count x l) (x :: l) := by
  intro l
  induction l with
  | nil => exact List.Perm.refl _
  | cons y ys ih =>
    unfold insertCountDesc
    by_cases h : count x ≤ count y
    · rw [if_pos h]
      exact (List.Perm.cons y ih).trans (List.Perm.swap x y ys)
    · rw [if_neg h]

theorem sortCountDesc_perm (count : α → Nat) :
    ∀ l : List α, List.Perm (sortCountDesc count l) l := by
  intro l
  induction l with
  | nil => exact List.Perm.refl _
  | cons x xs ih =>
    unfold sortCountDesc
    exact (insertCountDesc_perm count x _).trans (List.Perm.cons x ih)

theorem insertCountDesc_pairwise (count : α → Nat) (x : α) :
    ∀ l : List α, l.Pairwise (fun a b => count b ≤ count a) →
      (insertCountDesc count x l).Pairwise (fun a b => count b ≤ count a) := by
  intro l
  induction l with
  | nil => intro _; simp [insertCountDesc]
  | cons y ys ih =>
    intro h
    rw [List.pairwise_cons] at h
    obtain ⟨hy, hys⟩ := h
    unfold insertCountDesc
    by_cases hc : count x ≤ count y
    · rw [if_pos hc, List.pairwise_cons]
      refine ⟨?_, ih hys⟩
      intro b hb
      rcases List.mem_cons.mp ((insertCountDesc_perm count x ys).mem_iff.mp hb) with
        rfl | hmem
      · exact hc
      · exact hy b hmem
    · rw [if_neg hc, List.pairwise_cons]
      refine ⟨?_, List.pairwise_cons.mpr ⟨hy, hys⟩⟩
      intro b hb
      rcases List.mem_cons.mp hb with rfl | hmem
      · exact Nat.le_of_lt (Nat.lt_of_not_le hc)
      · exact Nat.le_trans (hy b hmem) (Nat.le_of_lt (Nat.lt_of_not_le hc))

theorem sortCountDesc_pairwise (count : α → Nat) :
    ∀ l : List α, (sortCountDesc count l).Pairwise (fun a b => count b ≤ count a) := by
  intro l
  induction l with
  | nil => simp [sortCountDesc]
  | cons x xs ih =>
    unfold sortCountDesc
    exact insertCountDesc_pairwise count x _ ih

theorem invBump_mem_cases (t nm : String) (n : Nat) :
    ∀ acc : List InvRow, (acc.map InvRow.rtype).Nodup →
      ∀ r' ∈ invBump t nm n acc,
      (r' ∈ acc ∧ r'.rtype ≠ t) ∨
      (∃ r ∈ acc, r.rtype = t ∧ r'.rtype = t ∧ r'.count = r.count + 1 ∧
        r'.sampleNames = (if r.sampleNames.length < n then r.sampleNames ++ [nm]
          else r.sampleNames)) ∨
      (t ∉ acc.map InvRow.rtype ∧
        r' = { rtype := t, count := 1, sampleNames := if 0 < n then [nm] else [] }) := by
  intro acc
  induction acc with
  | nil =>
    intro _ r' h
    simp only [invBump, List.mem_singleton] at h
    right
    right
    exact ⟨by simp, h⟩
  | cons r rest ih =>
    intro hnd r' h
    rw [List.map_cons, List.nodup_cons] at hnd
    obtain ⟨hrnotin, hndrest⟩ := hnd
    unfold invBump at h
    by_cases hr : r.rtype = t
    · rw [if_pos hr] at h
      rcases List.mem_cons.mp h with rfl | hmem
      · right
        left
        exact ⟨r, List.mem_cons_self r rest, hr, hr, rfl, rfl⟩
      · left
        refine ⟨List.mem_cons_of_mem r hmem, ?_⟩
        intro hcontra
        apply hrnotin
        rw [hr, ← hcontra]
        exact List.mem_map_of_mem InvRow.rtype hmem
    · rw [if_neg hr] at h
      rcases List.mem_cons.mp h with rfl | hmem
      · exact Or.inl ⟨List.mem_cons_self r' rest, fun hc => hr hc⟩
      · rcases ih hndrest r' hmem with ⟨hm, hne⟩ | ⟨rr, hrr, h1, h2, h3, h4⟩ | ⟨hnotin, heq⟩
        · exact Or.inl ⟨List.mem_cons_of_mem r hm, hne⟩
        · exact Or.inr (Or.inl ⟨rr, List.mem_cons_of_mem r hrr, h1, h2, h3, h4⟩)
        · refine Or.inr (Or.inr ⟨?_, heq⟩)
          rw [List.map_cons, List.mem_cons]
          rintro (hc | hc)
          · exact hr hc.symm
          · exact hnotin hc

theorem invBump_map_rtype (t nm : String) (n : Nat) :
    ∀ acc : List InvRow,
      (invBump t nm n acc).map InvRow.rtype =
        (if t ∈ acc.map InvRow.rtype then acc.map InvRow.rtype
         else acc.map InvRow.rtype ++ [t]) := by
  intro acc
  induction acc with
  | nil => simp [invBump]
  | cons r rest ih =>
    unfold invBump
    by_cases hr : r.rtype = t
    · rw [if_pos hr]
      simp [hr]
    · rw [if_neg hr]
      simp only [List.map_cons]
      rw [ih]
      by_cases hm : t ∈ rest.map InvRow.rtype
      · rw [if_pos hm, if_pos (by simp [hm])]
      · rw [if_neg hm, if_neg ?_, List.cons_append]
        rw [List.mem_cons]
        rintro (hc | hc)
        · exact hr hc.symm
        · exact hm hc

theorem invStep (res : ResourceStub) (n : Nat) (processed : List ResourceStub)
    (acc : List InvRow) (h : InvOk processed n acc) :
    InvOk (processed ++ [res]) n
      (invBump (pyLower (res.rtype.getD "")) (res.name.getD "") n acc) := by
  obtain ⟨hcnt, hnd, hcomp⟩ := h
  refine ⟨?_, ?_, ?_⟩
  · intro r' hr'
    rcases invBump_mem_cases (pyLower (res.rtype.getD "")) (res.name.getD "") n acc
        hnd r' hr' with ⟨hmem, hne⟩ | ⟨r, hrmem, hrt, hrt', hcount, hsamp⟩ | ⟨hnotin, heq⟩
    · obtain ⟨hc, hs⟩ := hcnt r' hmem
      refine ⟨?_, hs⟩
      rw [List.countP_append, hc]
      have : (pyLower (res.rtype.getD "") == r'.rtype) = false := by
        rw [beq_eq_false_iff_ne]
        exact fun hc' => hne hc'.symm
      simp [List.countP_cons, this]
    · obtain ⟨hc, hs⟩ := hcnt r hrmem
      constructor
      · rw [hcount, hc, List.countP_append, hrt', ← hrt]
        have : (pyLower (res.rtype.getD "") == r.rtype) = true := by
          rw [beq_iff_eq]
          exact hrt.symm ▸ hrt
        simp [List.countP_cons, this, hrt]
      · rw [hsamp]
        by_cases hlen : r.sampleNames.length < n
        · rw [if_pos hlen]
          simp only [List.length_append, List.length_singleton]
          omega
        · rw [if_neg hlen]
          exact hs
    · subst heq
      constructor
      · have hzero : processed.countP
            (fun res' => pyLower (res'.rtype.getD "") == pyLower (res.rtype.getD "")) = 0 := by
          rw [List.countP_eq_zero]
          intro a ha
          intro hbeq
          apply hnotin
          rw [← beq_iff_eq.mp hbeq]
          exact hcomp a ha
        simp [List.countP_append, List.countP_cons, hzero]
      · by_cases h0 : 0 < n
        · rw [if_pos h0]
          simpa using h0
        · rw [if_neg h0]
          simp
  · rw [invBump_map_rtype]
    by_cases hm : pyLower (res.rtype.getD "") ∈ acc.map InvRow.rtype
    · rw [if_pos hm]
      exact hnd
    · rw [if_neg hm]
      simp [List.nodup_append, hnd, hm, List.disjoint_singleton]
  · intro res' hres'
    rw [invBump_map_rtype]
    rcases List.mem_append.mp hres' with hold | hnew
    · by_cases hm : pyLower (res.rtype.getD "") ∈ acc.map InvRow.rtype
      · rw [if_pos hm]
        exact hcomp res' hold
      · rw [if_neg hm]
        exact List.mem_append_left _ (hcomp res' hold)
    · rw [List.mem_singleton] at hnew
      subst hnew
      by_cases hm : pyLower (res'.rtype.getD "") ∈ acc.map InvRow.rtype
      · rw [if_pos hm]
        exact hm
      · rw [if_neg hm]
        exact List.mem_append_right _ (List.mem_singleton_self _)

theorem invFold (n : Nat) :
    ∀ (rs processed : List ResourceStub) (acc : List InvRow),
      InvOk processed n acc →
      InvOk (processed ++ rs) n
        (rs.foldl (fun acc res =>
          invBump (pyLower (res.rtype.getD "")) (res.name.getD "") n acc) acc) := by
  intro rs
  induction rs with
  | nil =>
    intro processed acc h
    simpa using h
  | cons res rs' ih =>
    intro processed acc h
    have h2 := ih (processed ++ [res]) _ (invStep res n processed acc h)
    simpa [List.append_assoc] using h2

/-- C5: the inventory collector keeps the graph rows when the graph query
returned any; it runs the ARM fallback exactly when the graph query raised or
returned zero rows; and the fallback rows carry exact per-type counts over
the listed resources, sample lists bounded by `sample_size`, sorted by
descending count. -/
theorem inventory_two_tier (argR : Except String (List InvRow))
    (resources : List ResourceStub) (n : Nat) :
    (∀ rows, argR = Except.ok rows → rows ≠ [] →
      audit_subscription_resources argR (Except.ok resources) n = rows) ∧
    (∀ e, argR = Except.error e →
      audit_subscription_resources argR (Except.ok resources) n =
        _query_arm resources n) ∧
    (argR = Except.ok [] →
      audit_subscription_resources argR (Except.ok resources) n =
        _query_arm resources n) ∧
    (∀ r ∈ _query_arm resources n,
      r.count = resources.countP (fun res => pyLower (res.rtype.getD "") == r.rtype) ∧
      r.sampleNames.length ≤ n) ∧
    (_query_arm resources n).Pairwise (fun a b => b.count ≤ a.count) := by
  have hbase : InvOk [] n [] := by
    refine ⟨?_, ?_, ?_⟩ <;> simp [InvOk]
  have hfold := invFold n resources [] [] hbase
  simp only [List.nil_append] at hfold
  refine ⟨?_, ?_, ?_, ?_, ?_⟩
  · intro rows h hne
    subst h
    unfold audit_subscription_resources
    have : rows.isEmpty = false := by
      cases rows with
      | nil => simp at hne
      | cons a l => rfl
    simp [this]
  · intro e h
    subst h
    rfl
  · intro h
    subst h
    rfl
  · intro r hr
    have hmem : r ∈ resources.foldl (fun acc res =>
        invBump (pyLower (res.rtype.getD "")) (res.name.getD "") n acc) [] := by
      have hperm := sortCountDesc_perm (fun r : InvRow => r.count)
        (resources.foldl (fun acc res =>
          invBump (pyLower (res.rtype.getD "")) (res.name.getD "") n acc) [])
      exact hperm.mem_iff.mp hr
    exact hfold.1 r hmem
  · unfold _query_arm
    exact sortCountDesc_pairwise _ _

/-- Witness for C5: the fallback path on a zero-row graph result and a
three-resource ARM listing. -/
theorem inventory_two_tier_witness :
    audit_subscription_resources (Except.ok []) (Except.ok invResourcesW) 5 =
      _query_arm invResourcesW 5 :=
  (inventory_two_tier (Except.ok []) invResourcesW 5).2.2.1 rfl

/-! ## C1: collector error propagation through run_audit (corrected) -/

theorem get_vm_details_ok_iff (api : VmApi) (m : Nat) :
    (∃ d, get_vm_details api m = Except.ok d) ↔
      ((∃ l, api.virtual_machines_list_all = Except.ok l) ∧
       (∃ l, api.disks_list = Except.ok l)) := by
  cases h1 : api.virtual_machines_list_all <;> cases h2 : api.disks_list <;>
    simp [get_vm_details, h1, h2]

theorem get_storage_details_ok_iff (api : StorageApi) (m : Nat) :
    (∃ d, get_storage_details api m = Except.ok d) ↔
      (∃ l, api.storage_accounts_list = Except.ok l) := by
  cases h1 : api.storage_accounts_list <;> simp [get_storage_details, h1]

theorem get_network_details_ok_iff (api : NetworkApi) (m : Nat) :
    (∃ d, get_network_details api m = Except.ok d) ↔
      ((∃ l, api.gateways_res = Except.ok l) ∧
       (∃ l, api.er_circuits_res = Except.ok l) ∧
       (∃ l, api.priv_dns_res = Except.ok l) ∧
       (∃ l, api.priv_dns_links = Except.ok l) ∧
       (∃ l, api.vnets_list_all = Except.ok l)) := by
  cases h1 : api.gateways_res <;> cases h2 : api.er_circuits_res <;>
    cases h3 : api.priv_dns_res <;> cases h4 : api.priv_dns_links <;>
      cases h5 : api.vnets_list_all <;>
        simp [get_network_details, h1, h2, h3, h4, h5]

theorem get_rg_details_ok_iff (api : RgApi) (m : Nat) :
    (∃ d, get_rg_details api m = Except.ok d) ↔
      (∃ l, api.resource_groups_list = Except.ok l) := by
  cases h1 : api.resource_groups_list <;> simp [get_rg_details, h1]

/-- C1 counterexample: a run whose only underlying failure is the initial
`virtual_machines.list_all()` call ends with that exception escaping
`run_audit` — no report is produced, refuting the claim that every collector
failure is absorbed or wrapped. -/
theorem run_audit_counterexample :
    run_audit "sub-1" "tenant-1" auditApiBadVmList 24321 =
      Except.error "AuthorizationFailed" := by
  rfl

/-- C1 (amended): `run_audit` produces a report exactly when the nine
unguarded enumeration calls of the four detailed collectors succeed (VM
list-all and disks, storage account list, the four network `_list_by_type`
listings plus the VNet list, and the resource-group list); failures of every
other underlying call — the inventory graph/ARM queries, all per-resource
detail calls, all governance/security/cost sub-queries, and every
narrative-generation call — are absorbed and never block the report. -/
theorem run_audit_propagation (sid tid : String) (api : AuditApi) (tm : Nat) :
    (∃ s, run_audit sid tid api tm = Except.ok s) ↔
      (((∃ l, api.vm.virtual_machines_list_all = Except.ok l) ∧
        (∃ l, api.vm.disks_list = Except.ok l)) ∧
       (∃ l, api.storage.storage_accounts_list = Except.ok l) ∧
       ((∃ l, api.network.gateways_res = Except.ok l) ∧
        (∃ l, api.network.er_circuits_res = Except.ok l) ∧
        (∃ l, api.network.priv_dns_res = Except.ok l) ∧
        (∃ l, api.network.priv_dns_links = Except.ok l) ∧
        (∃ l, api.network.vnets_list_all = Except.ok l)) ∧
       (∃ l, api.rg.resource_groups_list = Except.ok l)) := by
  have hrun : (∃ s, run_audit sid tid api tm = Except.ok s) ↔
      ((∃ d, get_vm_details api.vm 100 = Except.ok d) ∧
       (∃ d, get_storage_details api.storage 200 = Except.ok d) ∧
       (∃ d, get_network_details api.network 50 = Except.ok d) ∧
       (∃ d, get_rg_details api.rg 100 = Except.ok d)) := by
    cases hv : get_vm_details api.vm 100 <;>
      cases hs2 : get_storage_details api.storage 200 <;>
        cases hn : get_network_details api.network 50 <;>
          cases hr : get_rg_details api.rg 100 <;>
            simp [run_audit, hv, hs2, hn, hr]
  rw [hrun, get_vm_details_ok_iff api.vm 100,
    get_storage_details_ok_iff api.storage 200,
    get_network_details_ok_iff api.network 50,
    get_rg_details_ok_iff api.rg 100]

end FSA
